import Mathlib

/-!
Verification of the YouTube search-results scraper's parsing and
record-management layer (`search_results_json_parser.py`,
`video_data_manager.py`, `data_classes/video.py`).

The Python code operates on JSON documents decoded into nested dicts and
lists.  We embed such documents as the inductive type `JSON`, Python's
subscript/int/str primitives as explicit `Except`-valued functions (a
`KeyError`, `TypeError`, `IndexError` or `ValueError` is an `.error`), and
each method of the two classes as a pure function, with the mutable
`self._videos` state passed explicitly.
-/

/-- A decoded JSON document: Python dicts become `obj` (entries in stored
order, as Python 3.7+ dicts preserve insertion order), lists become `arr`. -/
inductive JSON where
  | null : JSON
  | bool : Bool → JSON
  | num : Int → JSON
  | str : String → JSON
  | arr : List JSON → JSON
  | obj : List (String × JSON) → JSON

/-- The Python exceptions the embedded code can raise. `keyError` carries
Python's `str(e)` for the raised key (used by the `print(e)` log lines). -/
inductive PyErr where
  | keyError : String → PyErr
  | typeError : PyErr
  | indexError : PyErr
  | valueError : PyErr
deriving Repr, DecidableEq

/-- Python `var[k]` for a string key `k`: a dict looks the key up
(`KeyError` when absent), every other JSON value raises `TypeError`
(strings, lists and ints are not subscriptable by a string). -/
def pySubscript : JSON → String → Except PyErr JSON
  | .obj kvs, k =>
    match kvs.lookup k with
    | some v => .ok v
    | none => .error (.keyError ("\x27" ++ k ++ "\x27"))
  | _, _ => .error .typeError

/-- Python `var[i]` for an int index `i`: a list indexes (`IndexError` out of
range), a string indexes its characters, a dict raises `KeyError i` (its keys
here are strings), the rest raise `TypeError`. -/
def pyIndex : JSON → Nat → Except PyErr JSON
  | .arr ds, i =>
    match ds[i]? with
    | some v => .ok v
    | none => .error .indexError
  | .str s, i =>
    match s.data[i]? with
    | some c => .ok (.str (String.singleton c))
    | none => .error .indexError
  | .obj _, i => .error (.keyError (toString i))
  | _, _ => .error .typeError

/-- One character of Python string `repr`, for quote character `q`. -/
def pyReprChar (q : Char) (c : Char) : String :=
  if c = '\\' then "\\\\"
  else if c = q then "\\" ++ String.singleton q
  else if c = '\n' then "\\n"
  else if c = '\t' then "\\t"
  else if c = '\r' then "\\r"
  else String.singleton c

/-- Python `repr` of a string: single-quoted, except double-quoted when the
string contains a single quote but no double quote. -/
def pyReprString (s : String) : String :=
  let q : Char := if s.contains '\x27' && !s.contains '"' then '"' else '\x27'
  String.singleton q ++ String.join (s.data.map (pyReprChar q)) ++ String.singleton q

mutual
/-- Python `str(v)` of a decoded JSON value. -/
def pyStr : JSON → String
  | .null => "None"
  | .bool true => "True"
  | .bool false => "False"
  | .num n => toString n
  | .str s => s
  | .arr ds => "[" ++ pyReprList ds ++ "]"
  | .obj kvs => "\x7b" ++ pyReprEntries kvs ++ "\x7d"

/-- Python `repr(v)` of a decoded JSON value (differs from `str` only on
strings, which are quoted). -/
def pyRepr : JSON → String
  | .str s => pyReprString s
  | .null => "None"
  | .bool true => "True"
  | .bool false => "False"
  | .num n => toString n
  | .arr ds => "[" ++ pyReprList ds ++ "]"
  | .obj kvs => "\x7b" ++ pyReprEntries kvs ++ "\x7d"

/-- Comma-separated `repr`s of a list's elements. -/
def pyReprList : List JSON → String
  | [] => ""
  | [d] => pyRepr d
  | d :: rest => pyRepr d ++ ", " ++ pyReprList rest

/-- Comma-separated `repr(k): repr(v)` of a dict's entries. -/
def pyReprEntries : List (String × JSON) → String
  | [] => ""
  | [(k, v)] => pyReprString k ++ ": " ++ pyRepr v
  | (k, v) :: rest => pyReprString k ++ ": " ++ pyRepr v ++ ", " ++ pyReprEntries rest
end

/-- The value of a nonempty all-digit character list, accumulator style; any
non-digit makes the whole parse fail. -/
def digitsToNat : Nat → List Char → Option Nat
  | acc, [] => some acc
  | acc, c :: cs =>
    if c.isDigit then digitsToNat (acc * 10 + (c.toNat - 48)) cs else none

/-- Python `int(str)` on a decoded string: an optional sign followed by at
least one digit; anything else raises `ValueError`. -/
def pyIntOfString (s : String) : Option Int :=
  match s.data with
  | '-' :: cs => if cs.isEmpty then none else (digitsToNat 0 cs).map (fun n => -(n : Int))
  | '+' :: cs => if cs.isEmpty then none else (digitsToNat 0 cs).map (fun n => (n : Int))
  | cs => if cs.isEmpty then none else (digitsToNat 0 cs).map (fun n => (n : Int))

/-- Python `int(v)`: ints pass through, bools become 0/1, numeric strings are
parsed (`ValueError` otherwise), anything else raises `TypeError`. -/
def pyInt : JSON → Except PyErr Int
  | .num n => .ok n
  | .bool b => .ok (if b then 1 else 0)
  | .str s =>
    match pyIntOfString s with
    | some n => .ok n
    | none => .error .valueError
  | _ => .error .typeError

mutual
/-- `SearchResultsJSONParser._gen_dict_extract`, as the list of yielded
values: `hasattr(var, 'items')` holds exactly for dicts, so only an `obj`
produces anything; its entries are processed in stored order. -/
def gen_dict_extract (key : String) : JSON → List JSON
  | .obj kvs => gen_dict_extract_items key kvs
  | _ => []

/-- The `for k, v in var.items()` loop body of `_gen_dict_extract`: yield `v`
when `k == key`, then dispatch on `v`'s type. -/
def gen_dict_extract_items (key : String) : List (String × JSON) → List JSON
  | [] => []
  | (k, v) :: rest =>
    (if k = key then [v] else []) ++ gen_dict_extract_value key v ++
      gen_dict_extract_items key rest

/-- The `isinstance(v, dict) ... elif isinstance(v, list)` dispatch on one
stored value `v`: a dict is recursed into (running the items loop on its
entries), a list's elements are each recursed into, and any other value
contributes nothing. -/
def gen_dict_extract_value (key : String) : JSON → List JSON
  | .obj kvs => gen_dict_extract_items key kvs
  | .arr ds => gen_dict_extract_elems key ds
  | _ => []

/-- The `for d in v: for result in self._gen_dict_extract(key, d)` inner loop
of `_gen_dict_extract`. -/
def gen_dict_extract_elems (key : String) : List JSON → List JSON
  | [] => []
  | d :: rest => gen_dict_extract key d ++ gen_dict_extract_elems key rest
end

/-- The `Video` dataclass of `data_classes/video.py`; every field is
annotated `str` there, so extracted JSON values enter via `pyStr`. -/
structure Video where
  video_id : String
  video_url : String
  thumbnail_url : String
  title : String
  length : String
  channel : String
  channel_url : String
  channel_thumbnail_url : String
  uploaded_on : String
  view_count_text : String
deriving Repr, DecidableEq

/-- `Video.__str__`: the triple-quoted f-string, which ends in a newline. -/
def Video.toString (v : Video) : String :=
  "[" ++ v.video_id ++ "] " ++ v.title ++ " (" ++ v.length ++ ") - " ++
    v.view_count_text ++ "\nby: " ++ v.channel ++ " - uploaded " ++
    v.uploaded_on ++ " - " ++ v.video_url ++ "\n"

/-- Python's `e[k]` chained on an already-computed subscript result: the
earlier exception propagates, otherwise the subscript runs. -/
def subStr : Except PyErr JSON → String → Except PyErr JSON
  | .ok v, k => pySubscript v k
  | .error e, _ => .error e

/-- Python's `e[i]` chained on an already-computed subscript result. -/
def subIdx : Except PyErr JSON → Nat → Except PyErr JSON
  | .ok v, i => pyIndex v i
  | .error e, _ => .error e

/-- The `Video(...)` constructor call inside `parse_video_results`'s `try`
block: each argument is a subscript chain on the `compactVideoRenderer`
node, evaluated left to right, and the first exception aborts the call. -/
def build_video (video_id : JSON) (video : JSON) : Except PyErr Video := do
  let thumbnail_url ← subStr (subIdx (subStr (subStr (.ok video) "thumbnail") "thumbnails") 0) "url"
  let title ← subStr (subIdx (subStr (subStr (.ok video) "title") "runs") 0) "text"
  let length ← subStr (subIdx (subStr (subStr (.ok video) "lengthText") "runs") 0) "text"
  let channel ← subStr (subIdx (subStr (subStr (.ok video) "longBylineText") "runs") 0) "text"
  let channel_url ← subStr (subStr (subStr (subStr (subIdx (subStr (subStr (.ok video) "longBylineText") "runs") 0) "navigationEndpoint") "commandMetadata") "webCommandMetadata") "url"
  let channel_thumbnail_url ← subStr (subIdx (subStr (subStr (.ok video) "channelThumbnail") "thumbnails") 0) "url"
  let uploaded_on ← subStr (subIdx (subStr (subStr (.ok video) "publishedTimeText") "runs") 0) "text"
  let view_count_text ← subStr (subIdx (subStr (subStr (.ok video) "viewCountText") "runs") 0) "text"
  pure ⟨pyStr video_id,
        "https://www.youtube.com/watch?v=" ++ pyStr video_id,
        pyStr thumbnail_url, pyStr title, pyStr length, pyStr channel,
        pyStr channel_url, pyStr channel_thumbnail_url, pyStr uploaded_on,
        pyStr view_count_text⟩

/-- One iteration of the `for video in video_data` loop of
`parse_video_results`.  `video["videoId"]` runs before the `try` block, so
its exception escapes; inside the block only `KeyError` is caught, producing
the two `print` lines (the message naming the video's ID, then `str(e)`). -/
def parse_video_node (video : JSON) : Except PyErr (Video ⊕ List String) :=
  match pySubscript video "videoId" with
  | .error e => .error e
  | .ok video_id =>
    match build_video video_id video with
    | .ok v => .ok (.inl v)
    | .error (.keyError k) =>
        .ok (.inr ["KeyError for video with ID " ++ pyStr video_id ++ ".", k])
    | .error e => .error e

/-- The whole `for video in video_data` loop: threads `self._videos` and the
printed lines; an uncaught exception stops the loop, keeping the appends made
so far (the list is mutated in place). -/
def parse_video_loop : List Video → List String → List JSON → List Video × List String × Option PyErr
  | videos, logs, [] => (videos, logs, none)
  | videos, logs, video :: rest =>
    match parse_video_node video with
    | .ok (.inl v) => parse_video_loop (videos ++ [v]) logs rest
    | .ok (.inr ls) => parse_video_loop videos (logs ++ ls) rest
    | .error e => (videos, logs, some e)

/-- `SearchResultsJSONParser.parse_video_results`: extracts every
`compactVideoRenderer` node and runs the loop, starting from the parser's
current `self._videos` (passed explicitly).  Returns the new `self._videos`,
the printed lines, and the escaped exception if one was raised. -/
def parse_video_results (videos : List Video) (results_json : JSON) :
    List Video × List String × Option PyErr :=
  parse_video_loop videos [] (gen_dict_extract "compactVideoRenderer" results_json)

/-- `SearchResultsJSONParser.get_video_results`: returns `self._videos`. -/
def get_video_results (videos : List Video) : List Video := videos

/-- `SearchResultsJSONParser.get_estimated_results_count`:
`int(self._json["estimatedResults"])`. -/
def get_estimated_results_count (results_json : JSON) : Except PyErr Int :=
  match pySubscript results_json "estimatedResults" with
  | .error e => .error e
  | .ok v => pyInt v

/-- The tuple built by `get_next_continuation_data` from the first extracted
`nextContinuationData` value: a `KeyError` from either subscript is caught
(returning `None`), any other exception escapes. -/
def continuation_from_first (continuation_data : JSON) : Except PyErr (Option (JSON × JSON)) :=
  match pySubscript continuation_data "continuation" with
  | .error (.keyError _) => .ok none
  | .error e => .error e
  | .ok c =>
    match pySubscript continuation_data "clickTrackingParams" with
    | .error (.keyError _) => .ok none
    | .error e => .error e
    | .ok t => .ok (some (c, t))

/-- `SearchResultsJSONParser.get_next_continuation_data`: `next` on the
extractor's iterator (a `StopIteration`, i.e. an empty extraction, is caught
and gives `None`), then the two subscripts on that first value. -/
def get_next_continuation_data (results_json : JSON) : Except PyErr (Option (JSON × JSON)) :=
  match gen_dict_extract "nextContinuationData" results_json with
  | [] => .ok none
  | continuation_data :: _ => continuation_from_first continuation_data

/-- `VideoDataManager._videos`: a Python dict keyed by video ID.  Python
dicts preserve insertion order, so it is embedded as an association list
(append inserts at the end, `values()` reads left to right). -/
abbrev VideoStore := List (String × Video)

/-- `VideoDataManager.add_video_data_object`: a no-op with an informational
`print` when the ID is already a key, otherwise a new entry at the end. -/
def add_video_data_object (s : VideoStore) (video : Video) : VideoStore × Option String :=
  if (s.lookup video.video_id).isSome then
    (s, some ("Video \x27" ++ video.video_id ++ "\x27 already in dict, not adding."))
  else
    (s ++ [(video.video_id, video)], none)

/-- `VideoDataManager.add_videos`: `add_video_data_object` on each element in
order. -/
def add_videos (s : VideoStore) (videos : List Video) : VideoStore :=
  videos.foldl (fun acc v => (add_video_data_object acc v).1) s

/-- `VideoDataManager.get_videos`: `self._videos.values()` in stored order. -/
def get_videos (s : VideoStore) : List Video := s.map (·.2)

/-- `VideoDataManager.print_videos`: the lines printed, one per stored video,
numbered from 1 (`print` appends its own final newline, not modelled). -/
def print_videos (s : VideoStore) : List String :=
  (List.enumFrom 1 (get_videos s)).map (fun p => ToString.toString p.1 ++ ". " ++ p.2.toString)

/-- Python `sep.join(parts)`: the parts with `sep` between consecutive ones
and nothing at either end. -/
def pyJoin (sep : String) : List String → String
  | [] => ""
  | [x] => x
  | x :: rest => x ++ sep ++ pyJoin sep rest

/-- The three strings `write_videos_to_markdown_file` appends to
`markdown_contents` for one video. -/
def video_markdown_lines (video : Video) : List String :=
  ["![thumbnail preview](" ++ video.thumbnail_url ++ ")\n",
   "[[" ++ video.video_id ++ "] " ++ video.title ++ "](" ++ video.video_url ++ ") (" ++ video.length ++ ") - " ++ video.view_count_text ++ "  ",
   "![channel thumbnail preview](" ++ video.channel_thumbnail_url ++ ") " ++ video.channel ++ " - uploaded " ++ video.uploaded_on ++ "\n\n- - -\n"]

/-- `VideoDataManager.write_videos_to_markdown_file`: the string written to
the file — the header and three markdown lines per video, joined by
`"\n".join`. -/
def write_videos_to_markdown_file (s : VideoStore) : String :=
  pyJoin "\n" ("# Search Results Summary\n\n" :: (get_videos s).flatMap video_markdown_lines)

/-- Plain concatenation of a list of strings (used to state what the
markdown rendering looks like per record). -/
def strConcat : List String → String
  | [] => ""
  | x :: rest => x ++ strConcat rest

/-!  Spec-side definitions.  The following are written from the
specification's words (not from the code), to be compared with the
embeddings above. -/

mutual
/-- Spec-side Deep-Key Extractor: "every value found anywhere in the
structure under that key name, in a deterministic traversal order
(depth-first, each map's entries in their stored order, each sequence in
index order; a map is explored for nested occurrences even after yielding a
match at the current level)". -/
def specOccurrences (key : String) : JSON → List JSON
  | .obj entries => specEntriesOccurrences key entries
  | _ => []

/-- Spec-side traversal of a map's entries in stored order: yield the value
when the entry's key matches, then explore the value. -/
def specEntriesOccurrences (key : String) : List (String × JSON) → List JSON
  | [] => []
  | (k, v) :: rest =>
    (if k = key then [v] else []) ++ specExplore key v ++ specEntriesOccurrences key rest

/-- Spec-side exploration of one stored value: "recurses into map values
that are themselves maps, and into sequence elements that are maps, but does
not ... recurse into nested sequences-of-sequences beyond one level". -/
def specExplore (key : String) : JSON → List JSON
  | .obj entries => specEntriesOccurrences key entries
  | .arr elems => specElemsOccurrences key elems
  | _ => []

/-- Spec-side traversal of a sequence in index order: only elements that are
maps are explored. -/
def specElemsOccurrences (key : String) : List JSON → List JSON
  | [] => []
  | .obj entries :: rest => specEntriesOccurrences key entries ++ specElemsOccurrences key rest
  | _ :: rest => specElemsOccurrences key rest
end

mutual
/-- Spec-side "key absent from the document": whether `key` occurs as a map
key anywhere in the document, at any depth, including inside sequences of
sequences. -/
def keyOccurs (key : String) : JSON → Bool
  | .obj entries => keyOccursEntries key entries
  | .arr elems => keyOccursElems key elems
  | _ => false

/-- `keyOccurs` over a map's entries. -/
def keyOccursEntries (key : String) : List (String × JSON) → Bool
  | [] => false
  | (k, v) :: rest => k = key || keyOccurs key v || keyOccursEntries key rest

/-- `keyOccurs` over a sequence's elements. -/
def keyOccursElems (key : String) : List JSON → Bool
  | [] => false
  | d :: rest => keyOccurs key d || keyOccursElems key rest
end

/-- Spec-side description of `insert_many`: keep each record whose identifier
was not already seen, in first-seen order, dropping later duplicates; `seen`
is the set of identifiers already in the store. -/
def specFirstSeen (seen : List String) : List Video → List Video
  | [] => []
  | v :: rest =>
    if v.video_id ∈ seen then specFirstSeen seen rest
    else v :: specFirstSeen (v.video_id :: seen) rest

/-!  Document builders used to state the batch-parsing claims: a search
document holding a list of `compactVideoRenderer` entries, each either
well-formed or missing exactly one required sub-field. -/

/-- The data of one well-formed video entry. -/
structure VideoFields where
  videoId : String
  thumbnailUrl : String
  title : String
  length : String
  channel : String
  channelUrl : String
  channelThumbnailUrl : String
  uploadedOn : String
  viewCountText : String
deriving Repr, DecidableEq

/-- The required sub-fields of a `compactVideoRenderer` entry, as accessed by
`parse_video_results` (the identifier plus the seven top-level data keys). -/
inductive ReqField where
  | videoId
  | thumbnail
  | title
  | lengthText
  | longBylineText
  | channelThumbnail
  | publishedTimeText
  | viewCountText
deriving Repr, DecidableEq

/-- The dict key a required sub-field lives under. -/
def ReqField.key : ReqField → String
  | .videoId => "videoId"
  | .thumbnail => "thumbnail"
  | .title => "title"
  | .lengthText => "lengthText"
  | .longBylineText => "longBylineText"
  | .channelThumbnail => "channelThumbnail"
  | .publishedTimeText => "publishedTimeText"
  | .viewCountText => "viewCountText"

/-- The entries of a well-formed `compactVideoRenderer` node built from `f`. -/
def videoNodeEntries (f : VideoFields) : List (String × JSON) :=
  [("videoId", .str f.videoId),
   ("thumbnail", .obj [("thumbnails", .arr [.obj [("url", .str f.thumbnailUrl)]])]),
   ("title", .obj [("runs", .arr [.obj [("text", .str f.title)]])]),
   ("lengthText", .obj [("runs", .arr [.obj [("text", .str f.length)]])]),
   ("longBylineText", .obj [("runs", .arr [.obj
      [("text", .str f.channel),
       ("navigationEndpoint", .obj [("commandMetadata", .obj
          [("webCommandMetadata", .obj [("url", .str f.channelUrl)])])])]])]),
   ("channelThumbnail", .obj [("thumbnails", .arr [.obj [("url", .str f.channelThumbnailUrl)]])]),
   ("publishedTimeText", .obj [("runs", .arr [.obj [("text", .str f.uploadedOn)]])]),
   ("viewCountText", .obj [("runs", .arr [.obj [("text", .str f.viewCountText)]])])]

/-- One video entry of a test document: either well-formed, or with exactly
one required sub-field removed. -/
inductive EntrySpec where
  | valid : VideoFields → EntrySpec
  | missing : VideoFields → ReqField → EntrySpec
deriving Repr, DecidableEq

/-- The `compactVideoRenderer` node of an entry. -/
def EntrySpec.node : EntrySpec → JSON
  | .valid f => .obj (videoNodeEntries f)
  | .missing f r => .obj ((videoNodeEntries f).filter (fun kv => kv.1 ≠ r.key))

/-- A search document carrying the given entries, in order, in the place the
real response keeps them (each wrapped in a `compactVideoRenderer` object
inside a contents list). -/
def mkDoc (entries : List EntrySpec) : JSON :=
  .obj [("contents", .arr (entries.map (fun e => .obj [("compactVideoRenderer", e.node)])))]

/-- The `Video` record `parse_video_results` builds from a well-formed entry. -/
def expectedVideo (f : VideoFields) : Video :=
  ⟨f.videoId, "https://www.youtube.com/watch?v=" ++ f.videoId,
   f.thumbnailUrl, f.title, f.length, f.channel, f.channelUrl,
   f.channelThumbnailUrl, f.uploadedOn, f.viewCountText⟩

/-- The record an entry contributes: a well-formed entry's `Video`, nothing
for a malformed one. -/
def EntrySpec.record : EntrySpec → Option Video
  | .valid f => some (expectedVideo f)
  | .missing _ _ => none

/-- The log lines an entry contributes: the skip message with the entry's
identifier plus `str(e)` for a malformed one, nothing for a well-formed one. -/
def EntrySpec.logs : EntrySpec → List String
  | .valid _ => []
  | .missing f r =>
      ["KeyError for video with ID " ++ f.videoId ++ ".",
       "\x27" ++ r.key ++ "\x27"]

/-- Whether an entry is the one malformed shape `parse_video_results` does
not survive: a node whose missing sub-field is the identifier itself. -/
def EntrySpec.missingVideoId : EntrySpec → Bool
  | .missing _ .videoId => true
  | _ => false

/-!  Helper lemmas. -/

mutual
/-- The extractor agrees with the spec-side depth-first description. -/
theorem gen_eq_spec (key : String) : (v : JSON) → gen_dict_extract key v = specOccurrences key v
  | .obj kvs => by
      have h := items_eq_spec key kvs
      simp only [gen_dict_extract, specOccurrences]
      exact h
  | .null => rfl
  | .bool _ => rfl
  | .num _ => rfl
  | .str _ => rfl
  | .arr _ => rfl

/-- Items loop versus spec-side entry traversal. -/
theorem items_eq_spec (key : String) :
    (es : List (String × JSON)) → gen_dict_extract_items key es = specEntriesOccurrences key es
  | [] => rfl
  | (k, v) :: rest => by
      have hrest := items_eq_spec key rest
      have hmid := value_eq_spec key v
      simp only [gen_dict_extract_items, specEntriesOccurrences, hrest, hmid]

/-- Value dispatch versus spec-side exploration. -/
theorem value_eq_spec (key : String) :
    (v : JSON) → gen_dict_extract_value key v = specExplore key v
  | .obj kvs => by
      have h := items_eq_spec key kvs
      simp only [gen_dict_extract_value, specExplore]
      exact h
  | .arr ds => by
      have h := elems_eq_spec key ds
      simp only [gen_dict_extract_value, specExplore]
      exact h
  | .null => rfl
  | .bool _ => rfl
  | .num _ => rfl
  | .str _ => rfl

/-- Element loop versus spec-side sequence traversal. -/
theorem elems_eq_spec (key : String) :
    (ds : List JSON) → gen_dict_extract_elems key ds = specElemsOccurrences key ds
  | [] => rfl
  | d :: rest => by
      have hrest := elems_eq_spec key rest
      have hd := gen_eq_spec key d
      simp only [gen_dict_extract_elems, hrest, hd]
      cases d with
      | obj kvs => simp only [specOccurrences, specElemsOccurrences]
      | arr ds2 => simp only [specOccurrences, specElemsOccurrences, List.nil_append]
      | null => simp only [specOccurrences, specElemsOccurrences, List.nil_append]
      | bool _ => simp only [specOccurrences, specElemsOccurrences, List.nil_append]
      | num _ => simp only [specOccurrences, specElemsOccurrences, List.nil_append]
      | str _ => simp only [specOccurrences, specElemsOccurrences, List.nil_append]
end

mutual
/-- A key that occurs nowhere in a document is never yielded. -/
theorem gen_dict_extract_empty (key : String) :
    (v : JSON) → keyOccurs key v = false → gen_dict_extract key v = []
  | .obj kvs => by
      intro h
      have h2 : keyOccursEntries key kvs = false := by
        simpa [keyOccurs] using h
      have := items_empty key kvs h2
      simpa [gen_dict_extract]
  | .null => fun _ => rfl
  | .bool _ => fun _ => rfl
  | .num _ => fun _ => rfl
  | .str _ => fun _ => rfl
  | .arr _ => fun _ => rfl

/-- `gen_dict_extract_empty` for the items loop. -/
theorem items_empty (key : String) :
    (es : List (String × JSON)) → keyOccursEntries key es = false →
      gen_dict_extract_items key es = []
  | [], _ => rfl
  | (k, v) :: rest, h => by
      simp only [keyOccursEntries, Bool.or_eq_false_iff, decide_eq_false_iff_not] at h
      have hv := value_empty key v h.1.2
      have hrest := items_empty key rest h.2
      simp only [gen_dict_extract_items, hv, hrest, if_neg h.1.1, List.append_nil,
        List.nil_append]

/-- `gen_dict_extract_empty` for the value dispatch. -/
theorem value_empty (key : String) :
    (v : JSON) → keyOccurs key v = false → gen_dict_extract_value key v = []
  | .obj kvs => by
      intro h
      have h2 : keyOccursEntries key kvs = false := by
        simpa [keyOccurs] using h
      have := items_empty key kvs h2
      simpa [gen_dict_extract_value]
  | .arr ds => by
      intro h
      have h2 : keyOccursElems key ds = false := by
        simpa [keyOccurs] using h
      have := elems_empty key ds h2
      simpa [gen_dict_extract_value]
  | .null => fun _ => rfl
  | .bool _ => fun _ => rfl
  | .num _ => fun _ => rfl
  | .str _ => fun _ => rfl

/-- `gen_dict_extract_empty` for the element loop. -/
theorem elems_empty (key : String) :
    (ds : List JSON) → keyOccursElems key ds = false → gen_dict_extract_elems key ds = []
  | [], _ => rfl
  | d :: rest, h => by
      simp only [keyOccursElems, Bool.or_eq_false_iff] at h
      have hd := gen_dict_extract_empty key d h.1
      have hrest := elems_empty key rest h.2
      simp only [gen_dict_extract_elems, hd, hrest, List.append_nil]
end

/-- Claim C3: the Deep-Key Extractor yields, for every finite nested
structure and target key, every value stored under that key reachable
through map values and through map elements of sequences stored as map
values, in deterministic depth-first order (each map's entries in stored
order, each sequence in index order) — this is the equivalence with the
spec-side `specOccurrences` — and a concrete document with the key at
depths 0, 1 and 5 yields all three values, while a yielded map value is
still explored for nested occurrences. -/
theorem C3_deep_key_extractor_depth_first :
    (∀ (key : String) (v : JSON), gen_dict_extract key v = specOccurrences key v) ∧
    gen_dict_extract "k"
      (.obj [("k", .str "v0"),
             ("a", .obj [("k", .str "v1")]),
             ("b", .obj [("c", .arr [.obj [("d", .obj [("e", .obj [("k", .str "v5")])])]])])])
      = [.str "v0", .str "v1", .str "v5"] ∧
    gen_dict_extract "k" (.obj [("k", .obj [("k", .str "inner")])])
      = [.obj [("k", .str "inner")], .str "inner"] :=
  ⟨fun key v => gen_eq_spec key v, rfl, rfl⟩

/-- Claim C4: when the target key occurs nowhere in a well-formed finite
document, the Deep-Key Extractor yields the empty sequence (and, being a
total function over `JSON`, it raises nothing on heterogeneous shapes). -/
theorem C4_absent_key_yields_empty :
    ∀ (key : String) (v : JSON), keyOccurs key v = false → gen_dict_extract key v = [] :=
  fun key v h => gen_dict_extract_empty key v h

/-- Witness for C4 on a heterogeneous document (numbers, strings, booleans,
null, a nested sequence of sequences) not containing the key `"missing"`. -/
theorem C4_absent_key_yields_empty_witness :
    keyOccurs "missing"
      (.obj [("a", .num 1), ("b", .arr [.str "x", .arr [.bool true], .obj [("c", .null)]])])
      = false ∧
    gen_dict_extract "missing"
      (.obj [("a", .num 1), ("b", .arr [.str "x", .arr [.bool true], .obj [("c", .null)]])])
      = [] :=
  ⟨rfl, C4_absent_key_yields_empty "missing"
    (.obj [("a", .num 1), ("b", .arr [.str "x", .arr [.bool true], .obj [("c", .null)]])])
    rfl⟩

/-- Claim C5: the Deep-Key Extractor yields nothing for any input whose top
level is a sequence — even when its elements are maps containing the key —
and a sequence nested directly inside another sequence is not recursed into
(an occurrence reachable only through a sequence-of-sequences is not found,
though the same occurrence one map-step away is). -/
theorem C5_no_recursion_into_nested_sequences :
    (∀ (key : String) (elems : List JSON), gen_dict_extract key (.arr elems) = []) ∧
    gen_dict_extract "k" (.arr [.obj [("k", .str "x")]]) = [] ∧
    gen_dict_extract "k" (.obj [("a", .arr [.arr [.obj [("k", .str "x")]]])]) = [] ∧
    gen_dict_extract "k" (.obj [("a", .arr [.obj [("k", .str "x")]])]) = [.str "x"] :=
  ⟨fun _ _ => rfl, rfl, rfl, rfl⟩

/-- Lookup in an appended store: the left store wins, otherwise the right is
consulted. -/
theorem store_lookup_append (s t : VideoStore) (k : String) :
    (s ++ t).lookup k = ((s.lookup k).map some).getD (t.lookup k) := by
  induction s with
  | nil => simp [List.lookup]
  | cons e rest ih =>
    by_cases h : k == e.1 <;> simp [List.lookup, h, ih]

/-- A key is found in the store exactly when it is among the stored keys. -/
theorem store_lookup_isSome_iff (s : VideoStore) (k : String) :
    (s.lookup k).isSome = true ↔ k ∈ s.map (·.1) := by
  induction s with
  | nil => simp [List.lookup]
  | cons e rest ih =>
    by_cases h : k = e.1
    · simp [List.lookup, h]
    · have hbeq : (k == e.1) = false := beq_false_of_ne h
      simp [List.lookup, hbeq, ih, h]

/-- `specFirstSeen` only depends on the membership of the seen set. -/
theorem specFirstSeen_congr (s1 s2 : List String) (l : List Video)
    (h : ∀ x, x ∈ s1 ↔ x ∈ s2) : specFirstSeen s1 l = specFirstSeen s2 l := by
  induction l generalizing s1 s2 with
  | nil => rfl
  | cons v rest ih =>
    by_cases hv : v.video_id ∈ s1
    · have hv2 : v.video_id ∈ s2 := (h _).1 hv
      simp [specFirstSeen, hv, hv2, ih s1 s2 h]
    · have hv2 : v.video_id ∉ s2 := fun hx => hv ((h _).2 hx)
      simp only [specFirstSeen, if_neg hv, if_neg hv2]
      rw [ih (v.video_id :: s1) (v.video_id :: s2) (by intro x; simp [h x])]

/-- `add_videos` appends, in first-seen order, exactly the records whose
identifiers are new. -/
theorem add_videos_get_videos (videos : List Video) (s : VideoStore) :
    get_videos (add_videos s videos) = get_videos s ++ specFirstSeen (s.map (·.1)) videos := by
  induction videos generalizing s with
  | nil => simp [add_videos, specFirstSeen, get_videos]
  | cons v rest ih =>
    have hstep : add_videos s (v :: rest) = add_videos (add_video_data_object s v).1 rest := by
      simp [add_videos]
    rw [hstep]
    by_cases h : (s.lookup v.video_id).isSome = true
    · have hmem : v.video_id ∈ s.map (·.1) := (store_lookup_isSome_iff s _).1 h
      have hno : (add_video_data_object s v).1 = s := by
        simp [add_video_data_object, h]
      rw [hno, ih s]
      simp [specFirstSeen, hmem]
    · have hmem : v.video_id ∉ s.map (·.1) := fun hx => h ((store_lookup_isSome_iff s _).2 hx)
      have hadd : (add_video_data_object s v).1 = s ++ [(v.video_id, v)] := by
        simp [add_video_data_object, h]
      rw [hadd, ih]
      simp only [get_videos, List.map_append, List.map_cons, List.map_nil, specFirstSeen,
        if_neg hmem, List.append_assoc, List.cons_append, List.nil_append]
      congr 1
      congr 1
      exact specFirstSeen_congr _ _ rest (by intro x; simp [or_comm])

/-- Inserting the same record a second time leaves the store unchanged. -/
theorem store_second_insert_noop (s : VideoStore) (v : Video) :
    (add_video_data_object (add_video_data_object s v).1 v).1 = (add_video_data_object s v).1 := by
  by_cases h : (s.lookup v.video_id).isSome = true
  · simp [add_video_data_object, h]
  · have hnone : s.lookup v.video_id = none := by
      cases hx : s.lookup v.video_id with
      | none => rfl
      | some w => rw [hx] at h; simp at h
    have h2 : ((s ++ [(v.video_id, v)]).lookup v.video_id).isSome = true := by
      rw [store_lookup_append, hnone]
      simp [List.lookup]
    simp [add_video_data_object, h, h2]

/-- Claim C6: Record Store insert is idempotent by identifier — inserting a
record twice leaves the store (hence `all()`) as after one insert, and an
insert whose identifier is already present is a no-op that keeps the existing
record and only emits the informational message. -/
theorem C6_insert_idempotent_by_id :
    (∀ (s : VideoStore) (v : Video),
        (add_video_data_object (add_video_data_object s v).1 v).1 = (add_video_data_object s v).1) ∧
    (∀ (s : VideoStore) (v : Video),
        get_videos (add_video_data_object (add_video_data_object s v).1 v).1 =
          get_videos (add_video_data_object s v).1) ∧
    (∀ (s : VideoStore) (w : Video), (s.lookup w.video_id).isSome = true →
        (add_video_data_object s w).1 = s ∧
        (add_video_data_object s w).2 =
          some ("Video \x27" ++ w.video_id ++ "\x27 already in dict, not adding.")) := by
  refine ⟨store_second_insert_noop, fun s v => congrArg get_videos (store_second_insert_noop s v), ?_⟩
  intro s w h
  constructor <;> simp [add_video_data_object, h]

/-- Witness for C6: a store holding ID "a" rejects a different record with
the same ID, keeping the store and printing the informational message. -/
theorem C6_insert_idempotent_by_id_witness :
    (([("a", ⟨"a", "u", "t", "T1", "3:00", "C", "/c", "ct", "now", "1 view"⟩)] : VideoStore).lookup
        (⟨"a", "u2", "t2", "T2", "4:00", "C2", "/c2", "ct2", "later", "2 views"⟩ : Video).video_id).isSome = true ∧
    (add_video_data_object [("a", ⟨"a", "u", "t", "T1", "3:00", "C", "/c", "ct", "now", "1 view"⟩)]
        ⟨"a", "u2", "t2", "T2", "4:00", "C2", "/c2", "ct2", "later", "2 views"⟩).1 =
      [("a", ⟨"a", "u", "t", "T1", "3:00", "C", "/c", "ct", "now", "1 view"⟩)] ∧
    (add_video_data_object [("a", ⟨"a", "u", "t", "T1", "3:00", "C", "/c", "ct", "now", "1 view"⟩)]
        ⟨"a", "u2", "t2", "T2", "4:00", "C2", "/c2", "ct2", "later", "2 views"⟩).2 =
      some ("Video \x27a\x27 already in dict, not adding.") :=
  ⟨rfl, C6_insert_idempotent_by_id.2.2
    [("a", ⟨"a", "u", "t", "T1", "3:00", "C", "/c", "ct", "now", "1 view"⟩)]
    ⟨"a", "u2", "t2", "T2", "4:00", "C2", "/c2", "ct2", "later", "2 views"⟩ rfl⟩

/-- Claim C7: after `insert_many`, `all()` lists the prior records followed
by exactly the new records whose identifiers had not been seen before, in
first-seen order, with later duplicates by identifier dropped. -/
theorem C7_insert_many_first_seen_order (s : VideoStore) (videos : List Video) :
    get_videos (add_videos s videos) = get_videos s ++ specFirstSeen (s.map (·.1)) videos :=
  add_videos_get_videos videos s

/-- Joining with a separator steps one element at a time. -/
theorem pyJoin_cons2 (sep x y : String) (l : List String) :
    pyJoin sep (x :: y :: l) = x ++ sep ++ pyJoin sep (y :: l) := rfl

/-- The markdown join, written as header plus one concatenated block per
record. -/
theorem pyJoin_video_lines (h : String) (l : List Video) :
    pyJoin "\n" (h :: l.flatMap video_markdown_lines) =
      h ++ strConcat (l.map (fun v =>
        "\n" ++ ("![thumbnail preview](" ++ v.thumbnail_url ++ ")\n") ++
        "\n" ++ ("[[" ++ v.video_id ++ "] " ++ v.title ++ "](" ++ v.video_url ++ ") (" ++ v.length ++ ") - " ++ v.view_count_text ++ "  ") ++
        "\n" ++ ("![channel thumbnail preview](" ++ v.channel_thumbnail_url ++ ") " ++ v.channel ++ " - uploaded " ++ v.uploaded_on ++ "\n\n- - -\n"))) := by
  induction l generalizing h with
  | nil => simp [pyJoin, strConcat]
  | cons v rest ih =>
    simp only [video_markdown_lines, List.flatMap_cons, List.cons_append, List.nil_append]
    rw [pyJoin_cons2, pyJoin_cons2, pyJoin_cons2, ih]
    simp only [List.map_cons, strConcat]
    simp [String.append_assoc]

/-- Claim C8: `estimated_result_count` returns the integer value of the
top-level `"estimatedResults"` field — `3` for the string `"3"`, and
generally the parsed value of a numeric string or the int itself — and
raises a `KeyError` to the caller exactly when the field is absent at the
top level. -/
theorem C8_estimated_result_count :
    get_estimated_results_count (.obj [("estimatedResults", .str "3")]) = .ok 3 ∧
    (∀ (kvs : List (String × JSON)) (s : String) (n : Int),
        kvs.lookup "estimatedResults" = some (.str s) → pyIntOfString s = some n →
        get_estimated_results_count (.obj kvs) = .ok n) ∧
    (∀ (kvs : List (String × JSON)) (n : Int),
        kvs.lookup "estimatedResults" = some (.num n) →
        get_estimated_results_count (.obj kvs) = .ok n) ∧
    (∀ kvs : List (String × JSON),
        kvs.lookup "estimatedResults" = none →
        get_estimated_results_count (.obj kvs) = .error (.keyError "\x27estimatedResults\x27")) := by
  refine ⟨rfl, ?_, ?_, ?_⟩
  · intro kvs s n h1 h2
    simp [get_estimated_results_count, pySubscript, h1, pyInt, h2]
  · intro kvs n h1
    simp [get_estimated_results_count, pySubscript, h1, pyInt]
  · intro kvs h1
    simp [get_estimated_results_count, pySubscript, h1]

/-- Witness for C8: the document mapping `"estimatedResults"` to `"3"` gives
the integer 3. -/
theorem C8_estimated_result_count_witness :
    ([("estimatedResults", JSON.str "3")].lookup "estimatedResults" = some (.str "3")) ∧
    pyIntOfString "3" = some 3 ∧
    get_estimated_results_count (.obj [("estimatedResults", .str "3")]) = .ok 3 :=
  ⟨rfl, rfl, C8_estimated_result_count.2.1 [("estimatedResults", .str "3")] "3" 3 rfl rfl⟩

/-- Claim C9: for every store contents, the plain-text renderer outputs one
numbered entry per record in the claimed form (ending in the newline of the
triple-quoted `__str__`), and the markdown renderer produces the
`# Search Results Summary` header followed per record by a thumbnail image
reference, a linked title line, a channel line with channel thumbnail, and a
`- - -` separator; both in store enumeration order. -/
theorem C9_render_formats (s : VideoStore) :
    print_videos s =
      (List.enumFrom 1 (get_videos s)).map (fun p =>
        ToString.toString p.1 ++ ". " ++
          ("[" ++ p.2.video_id ++ "] " ++ p.2.title ++ " (" ++ p.2.length ++ ") - " ++
            p.2.view_count_text ++ "\nby: " ++ p.2.channel ++ " - uploaded " ++
            p.2.uploaded_on ++ " - " ++ p.2.video_url ++ "\n")) ∧
    write_videos_to_markdown_file s =
      "# Search Results Summary\n\n" ++
        strConcat ((get_videos s).map (fun v =>
          "\n" ++ ("![thumbnail preview](" ++ v.thumbnail_url ++ ")\n") ++
          "\n" ++ ("[[" ++ v.video_id ++ "] " ++ v.title ++ "](" ++ v.video_url ++ ") (" ++ v.length ++ ") - " ++ v.view_count_text ++ "  ") ++
          "\n" ++ ("![channel thumbnail preview](" ++ v.channel_thumbnail_url ++ ") " ++ v.channel ++ " - uploaded " ++ v.uploaded_on ++ "\n\n- - -\n"))) :=
  ⟨rfl, pyJoin_video_lines _ (get_videos s)⟩

/-- Claim C2 counterexample: the claim promises the absence-signal with no
exception whenever the first `nextContinuationData` occurrence lacks the
expected sub-fields, but when that first occurrence is not a map (here the
string "x"), the subscript raises a `TypeError`, which the code does not
catch (only `StopIteration` and `KeyError` are). -/
theorem C2_counterexample :
    get_next_continuation_data (.obj [("nextContinuationData", .str "x")]) =
      .error .typeError := rfl

/-- Claim C2 (amended): `next_continuation` uses only the first occurrence of
`"nextContinuationData"` in the extractor's traversal order; it returns the
absence-signal when no occurrence exists, or when the first occurrence is a
map lacking either expected sub-field, and the full pair when a map
occurrence has both — a non-map first occurrence instead raises an uncaught
`TypeError`. -/
theorem C2_next_continuation_first_occurrence :
    (∀ j : JSON, gen_dict_extract "nextContinuationData" j = [] →
        get_next_continuation_data j = .ok none) ∧
    (∀ (j cd : JSON) (rest : List JSON),
        gen_dict_extract "nextContinuationData" j = cd :: rest →
        get_next_continuation_data j = continuation_from_first cd) ∧
    (∀ kvs : List (String × JSON),
        kvs.lookup "continuation" = none ∨ kvs.lookup "clickTrackingParams" = none →
        continuation_from_first (.obj kvs) = .ok none) ∧
    (∀ (kvs : List (String × JSON)) (c t : JSON),
        kvs.lookup "continuation" = some c → kvs.lookup "clickTrackingParams" = some t →
        continuation_from_first (.obj kvs) = .ok (some (c, t))) := by
  refine ⟨?_, ?_, ?_, ?_⟩
  · intro j h
    simp [get_next_continuation_data, h]
  · intro j cd rest h
    simp [get_next_continuation_data, h]
  · intro kvs h
    cases hc : kvs.lookup "continuation" with
    | none => simp [continuation_from_first, pySubscript, hc]
    | some c =>
      cases h with
      | inl hl => rw [hl] at hc; exact absurd hc (by simp)
      | inr hr => simp [continuation_from_first, pySubscript, hc, hr]
  · intro kvs c t h1 h2
    simp [continuation_from_first, pySubscript, h1, h2]

/-- Witness for C2 (amended): an empty document signals absence, a
continuation node with no tracking-parameter field signals absence, and a
complete continuation node returns both tokens. -/
theorem C2_next_continuation_first_occurrence_witness :
    get_next_continuation_data (.obj []) = .ok none ∧
    continuation_from_first (.obj [("continuation", .str "CONT")]) = .ok none ∧
    continuation_from_first
        (.obj [("continuation", .str "CONT"), ("clickTrackingParams", .str "CTP")]) =
      .ok (some (.str "CONT", .str "CTP")) :=
  ⟨C2_next_continuation_first_occurrence.1 (.obj []) rfl,
   C2_next_continuation_first_occurrence.2.2.1 [("continuation", .str "CONT")] (Or.inr rfl),
   C2_next_continuation_first_occurrence.2.2.2
     [("continuation", .str "CONT"), ("clickTrackingParams", .str "CTP")]
     (.str "CONT") (.str "CTP") rfl rfl⟩

/-- No entry node contains the search key `"compactVideoRenderer"` inside
itself. -/
theorem node_keyOccurs_false (e : EntrySpec) :
    keyOccurs "compactVideoRenderer" (EntrySpec.node e) = false := by
  cases e with
  | valid f =>
      simp [EntrySpec.node, videoNodeEntries, keyOccurs, keyOccursEntries, keyOccursElems]
  | missing f r =>
      cases r <;>
        simp [EntrySpec.node, videoNodeEntries, ReqField.key, List.filter, keyOccurs,
          keyOccursEntries, keyOccursElems]

/-- A well-formed entry parses to exactly the expected record. -/
theorem parse_valid_node (f : VideoFields) :
    parse_video_node (EntrySpec.node (.valid f)) = .ok (.inl (expectedVideo f)) := rfl

/-- An entry missing any required sub-field other than the identifier is
skipped: the `KeyError` is caught and turned into the two log lines. -/
theorem parse_missing_node (f : VideoFields) (r : ReqField) (hr : r ≠ .videoId) :
    parse_video_node (EntrySpec.node (.missing f r)) =
      .ok (.inr ["KeyError for video with ID " ++ f.videoId ++ ".", "\x27" ++ r.key ++ "\x27"]) := by
  cases r with
  | videoId => exact absurd rfl hr
  | thumbnail => rfl
  | title => rfl
  | lengthText => rfl
  | longBylineText => rfl
  | channelThumbnail => rfl
  | publishedTimeText => rfl
  | viewCountText => rfl

/-- An entry missing the identifier raises an uncaught `KeyError`. -/
theorem parse_missing_videoId_node (f : VideoFields) :
    parse_video_node (EntrySpec.node (.missing f .videoId)) =
      .error (.keyError "\x27videoId\x27") := rfl

/-- The extractor pulls exactly the entry nodes, in order, out of the
wrapped contents list. -/
theorem extract_wrappers (entries : List EntrySpec) :
    gen_dict_extract_elems "compactVideoRenderer"
        (entries.map (fun e => .obj [("compactVideoRenderer", e.node)])) =
      entries.map EntrySpec.node := by
  induction entries with
  | nil => rfl
  | cons e rest ih =>
    have hval := value_empty "compactVideoRenderer" e.node (node_keyOccurs_false e)
    simp only [List.map_cons, gen_dict_extract_elems, ih, gen_dict_extract,
      gen_dict_extract_items, gen_dict_extract_value, hval]
    simp

/-- The extractor applied to a whole test document yields its entry nodes. -/
theorem extract_mkDoc (entries : List EntrySpec) :
    gen_dict_extract "compactVideoRenderer" (mkDoc entries) = entries.map EntrySpec.node := by
  simp only [mkDoc, gen_dict_extract, gen_dict_extract_items, gen_dict_extract_value,
    extract_wrappers entries]
  simp

/-- The parse loop only appends to the incoming `self._videos` and printed
lines; what it appends does not depend on them. -/
theorem parse_video_loop_append (nodes : List JSON) (videos : List Video) (logs : List String) :
    parse_video_loop videos logs nodes =
      (videos ++ (parse_video_loop [] [] nodes).1,
       logs ++ (parse_video_loop [] [] nodes).2.1,
       (parse_video_loop [] [] nodes).2.2) := by
  induction nodes generalizing videos logs with
  | nil => simp [parse_video_loop]
  | cons node rest ih =>
    cases h : parse_video_node node with
    | ok res =>
      cases res with
      | inl v =>
        simp only [parse_video_loop, h, List.nil_append]
        rw [ih (videos ++ [v]) logs, ih [v] []]
        simp
      | inr ls =>
        simp only [parse_video_loop, h, List.nil_append]
        rw [ih videos (logs ++ ls), ih [] ls]
        simp
    | error e =>
      simp [parse_video_loop, h]

/-- The parse loop on a batch with no identifier-missing entry: the valid
records in order, the skip logs in order, no escaped exception. -/
theorem parse_loop_entries (entries : List EntrySpec)
    (h : ∀ e ∈ entries, EntrySpec.missingVideoId e = false) :
    parse_video_loop [] [] (entries.map EntrySpec.node) =
      (entries.filterMap EntrySpec.record, entries.flatMap EntrySpec.logs, none) := by
  induction entries with
  | nil => rfl
  | cons e rest ih =>
    have he := h e (List.mem_cons_self e rest)
    have hrest : ∀ x ∈ rest, EntrySpec.missingVideoId x = false :=
      fun x hx => h x (List.mem_cons_of_mem e hx)
    cases e with
    | valid f =>
      simp only [List.map_cons, parse_video_loop, parse_valid_node, List.nil_append]
      rw [parse_video_loop_append _ [expectedVideo f] [], ih hrest]
      simp [EntrySpec.record, EntrySpec.logs]
    | missing f r =>
      have hr : r ≠ .videoId := by
        intro hre
        rw [hre] at he
        simp [EntrySpec.missingVideoId] at he
      simp only [List.map_cons, parse_video_loop, parse_missing_node f r hr, List.nil_append]
      rw [parse_video_loop_append _ [] _, ih hrest]
      simp [EntrySpec.record, EntrySpec.logs]

/-- Claim C1 counterexample: the claim says no exception escapes regardless
of which required sub-field is missing, including the identifier
`"videoId"`; but `video_id = video["videoId"]` runs before the `try` block,
so a single entry missing `"videoId"` makes `parse` raise an uncaught
`KeyError` — no records, no skip log. -/
theorem C1_counterexample :
    parse_video_results []
        (mkDoc [.missing ⟨"idX", "TH", "TI", "LE", "CH", "CU", "CT", "UP", "VC"⟩ .videoId]) =
      ([], [], some (.keyError "\x27videoId\x27")) := rfl

/-- Claim C1 (amended): for every batch of N well-formed entries and M
entries each missing one required sub-field other than the identifier, in
any interleaving, `parse` returns exactly the N records of the well-formed
entries in order, skips the M malformed ones while logging each skipped
entry's identifier, and no exception escapes; an entry missing the
identifier itself instead aborts the batch with an uncaught `KeyError`. -/
theorem C1_parse_skips_malformed (entries : List EntrySpec)
    (h : ∀ e ∈ entries, EntrySpec.missingVideoId e = false) :
    parse_video_results [] (mkDoc entries) =
      (entries.filterMap EntrySpec.record, entries.flatMap EntrySpec.logs, none) := by
  simp only [parse_video_results, extract_mkDoc]
  exact parse_loop_entries entries h

/-- Witness for C1 (amended): two valid entries around one entry missing its
title — the two records come back, the malformed one is logged with its
identifier, nothing escapes. -/
theorem C1_parse_skips_malformed_witness :
    (∀ e ∈ ([.valid ⟨"a1", "t1", "T1", "L1", "C1", "U1", "CT1", "UO1", "VC1"⟩,
             .missing ⟨"a2", "t2", "T2", "L2", "C2", "U2", "CT2", "UO2", "VC2"⟩ .title,
             .valid ⟨"a3", "t3", "T3", "L3", "C3", "U3", "CT3", "UO3", "VC3"⟩] : List EntrySpec),
        EntrySpec.missingVideoId e = false) ∧
    parse_video_results []
        (mkDoc [.valid ⟨"a1", "t1", "T1", "L1", "C1", "U1", "CT1", "UO1", "VC1"⟩,
                .missing ⟨"a2", "t2", "T2", "L2", "C2", "U2", "CT2", "UO2", "VC2"⟩ .title,
                .valid ⟨"a3", "t3", "T3", "L3", "C3", "U3", "CT3", "UO3", "VC3"⟩]) =
      ([expectedVideo ⟨"a1", "t1", "T1", "L1", "C1", "U1", "CT1", "UO1", "VC1"⟩,
        expectedVideo ⟨"a3", "t3", "T3", "L3", "C3", "U3", "CT3", "UO3", "VC3"⟩],
       ["KeyError for video with ID a2.", "\x27title\x27"], none) :=
  ⟨by decide,
   C1_parse_skips_malformed
     [.valid ⟨"a1", "t1", "T1", "L1", "C1", "U1", "CT1", "UO1", "VC1"⟩,
      .missing ⟨"a2", "t2", "T2", "L2", "C2", "U2", "CT2", "UO2", "VC2"⟩ .title,
      .valid ⟨"a3", "t3", "T3", "L3", "C3", "U3", "CT3", "UO3", "VC3"⟩]
     (by decide)⟩

/-- Each `parse_video_results` call only appends to the parser's running
`self._videos`; the appended records and printed lines depend only on the
document. -/
theorem parse_video_results_append (videos : List Video) (j : JSON) :
    parse_video_results videos j =
      (videos ++ (parse_video_results [] j).1,
       (parse_video_results [] j).2.1, (parse_video_results [] j).2.2) := by
  have h := parse_video_loop_append (gen_dict_extract "compactVideoRenderer" j) videos []
  simpa [parse_video_results] using h

/-- Claim C10: the parser accumulates across calls — each call appends the
document's records to the existing `self._videos`, so after parsing D1 then
D2 `get_video_results` returns D1's records followed by D2's — and the
parser itself never deduplicates by identifier (a document with two entries
sharing an identifier yields both records). -/
theorem C10_parser_accumulates :
    (∀ (videos : List Video) (j : JSON),
        parse_video_results videos j =
          (videos ++ (parse_video_results [] j).1,
           (parse_video_results [] j).2.1, (parse_video_results [] j).2.2)) ∧
    (∀ (videos : List Video) (d1 d2 : JSON),
        get_video_results (parse_video_results (parse_video_results videos d1).1 d2).1 =
          videos ++ (parse_video_results [] d1).1 ++ (parse_video_results [] d2).1) ∧
    (parse_video_results [] (mkDoc [.valid ⟨"dup", "t", "T", "L", "C", "U", "CT", "UO", "VC"⟩,
                                    .valid ⟨"dup", "t", "T", "L", "C", "U", "CT", "UO", "VC"⟩])).1 =
      [expectedVideo ⟨"dup", "t", "T", "L", "C", "U", "CT", "UO", "VC"⟩,
       expectedVideo ⟨"dup", "t", "T", "L", "C", "U", "CT", "UO", "VC"⟩] := by
  refine ⟨parse_video_results_append, ?_, rfl⟩
  intro videos d1 d2
  rw [get_video_results, parse_video_results_append _ d2, parse_video_results_append videos d1]
